import Mathlib

/-!
Verification of the client-side data-synchronization lifecycle of the
k8s-basic demo application (frontend/src/app.js) and of its two deployment
scripts (deploy.sh and the PowerShell script deploy.ps1).

The React component App is embedded as an explicit state record
(`AppState`) together with effect traces: each operation of the component
(`fetchUsers`, `createUser`) is translated into the list of primitive
effects it performs, in source order, and the resulting state is obtained
by folding `applyEffect` over that list.  Network outcomes (the axios
responses) are passed in as explicit `Except` values, since the server is
an external collaborator.
-/

/-- A user record as returned by the server: `{id, name, email}`. -/
structure User where
  id : Nat
  name : String
  email : String
deriving DecidableEq, Repr

/-- The pending-creation draft held by the form: `{name, email}`. -/
structure Draft where
  name : String
  email : String
deriving DecidableEq, Repr

/-- Failure of a Gateway call: network failure or a non-2xx HTTP status. -/
inductive TransportError where
  | networkFailure
  | httpStatus (code : Nat)
deriving DecidableEq, Repr

/-- The component state of App (app.js lines 6-8): the `users` collection,
the `newUser` draft, the `loading` flag; plus the console log, so that the
logging-only error policy is part of the model. -/
structure AppState where
  users : List User
  newUser : Draft
  loading : Bool
  consoleLog : List String
deriving DecidableEq, Repr

/-- The empty draft `{ name: "", email: "" }`. -/
def emptyDraft : Draft := { name := "", email := "" }

/-- Initial component state (app.js lines 6-8):
`useState([])`, `useState({name:"",email:""})`, `useState(true)`. -/
def initState : AppState :=
  { users := [], newUser := emptyDraft, loading := true, consoleLog := [] }

/-- JavaScript `a || b` on an optional environment string: `undefined` and
the empty string are falsy and select the default. -/
def jsOr (v : Option String) (dflt : String) : String :=
  match v with
  | none => dflt
  | some s => if s = "" then dflt else s

/-- app.js line 10:
`process.env.REACT_APP_API_URL || "http://localhost:5000/api"`. -/
def API_BASE_URL (envVal : Option String) : String :=
  jsOr envVal "http://localhost:5000/api"

/-- The hardcoded default base URL. -/
def defaultApiBase : String := "http://localhost:5000/api"

/-- Primitive effects performed by the component, in source order. -/
inductive Effect where
  | setLoading (b : Bool)
  | httpGet (url : String)
  | setUsers (us : List User)
  | httpPost (url : String) (body : Draft)
  | setNewUser (d : Draft)
  | consoleError (msg : String)
deriving DecidableEq, Repr

/-- Whether an effect is the list-fetch HTTP request. -/
def Effect.isHttpGet : Effect → Bool
  | .httpGet _ => true
  | _ => false

/-- Whether an effect is the create HTTP request. -/
def Effect.isHttpPost : Effect → Bool
  | .httpPost _ _ => true
  | _ => false

/-- Whether an effect writes the `users` collection. -/
def Effect.writesUsers : Effect → Bool
  | .setUsers _ => true
  | _ => false

/-- Whether an effect writes the `loading` flag. -/
def Effect.writesLoading : Effect → Bool
  | .setLoading _ => true
  | _ => false

/-- State transition of one primitive effect.  HTTP requests do not change
component state; the setters update one field; `console.error` appends to
the log. -/
def applyEffect (s : AppState) : Effect → AppState
  | .setLoading b => { s with loading := b }
  | .httpGet _ => s
  | .setUsers us => { s with users := us }
  | .httpPost _ _ => s
  | .setNewUser d => { s with newUser := d }
  | .consoleError m => { s with consoleLog := s.consoleLog ++ [m] }

/-- Run a list of effects from a state. -/
def runEffects (s : AppState) (es : List Effect) : AppState :=
  es.foldl applyEffect s

/-- Effect trace of `fetchUsers` (app.js lines 16-26), given the outcome
of the GET: `setLoading(true)`, the GET itself, then on success
`setUsers(response.data)` and on failure `console.error`, and in either
case (`finally`) `setLoading(false)`. -/
def fetchUsersTrace (base : String) (resp : Except TransportError (List User)) :
    List Effect :=
  [Effect.setLoading true, Effect.httpGet (base ++ "/users")] ++
  (match resp with
   | Except.ok data => [Effect.setUsers data]
   | Except.error _ => [Effect.consoleError "Error fetching users:"]) ++
  [Effect.setLoading false]

/-- Effect trace of `createUser` (app.js lines 28-37), given the draft it
posts and the outcomes of the POST and of the refetch GET: the POST, then
on success `setNewUser({name:"",email:""})` followed by the whole
`fetchUsers` trace, and on failure only `console.error`. -/
def createUserTrace (base : String) (draft : Draft)
    (createResp : Except TransportError Unit)
    (listResp : Except TransportError (List User)) : List Effect :=
  Effect.httpPost (base ++ "/users") draft ::
  (match createResp with
   | Except.ok _ => Effect.setNewUser emptyDraft :: fetchUsersTrace base listResp
   | Except.error _ => [Effect.consoleError "Error creating user:"])

/-- Resulting state of one `fetchUsers` call. -/
def fetchUsers (base : String) (s : AppState)
    (resp : Except TransportError (List User)) : AppState :=
  runEffects s (fetchUsersTrace base resp)

/-- Resulting state of one `createUser` call (the draft posted is the one
currently in the state). -/
def createUser (base : String) (s : AppState)
    (createResp : Except TransportError Unit)
    (listResp : Except TransportError (List User)) : AppState :=
  runEffects s (createUserTrace base s.newUser createResp listResp)

/-- Whether a create outcome is a success. -/
def isOkB : Except TransportError Unit → Bool
  | Except.ok _ => true
  | Except.error _ => false

/-- A completed user interaction: a `loadAll` (`fetchUsers`) with its
outcome, or a `submitDraft` (`createUser`) with the outcomes of its POST
and of the refetch. -/
inductive UiAction where
  | load (resp : Except TransportError (List User))
  | submit (createResp : Except TransportError Unit)
      (listResp : Except TransportError (List User))
deriving Repr

/-- Apply one completed interaction to the component state. -/
def applyAction (base : String) (s : AppState) : UiAction → AppState
  | .load r => fetchUsers base s r
  | .submit cr lr => createUser base s cr lr

/-- Run a sequence of completed interactions from a state. -/
def runActions (base : String) (s : AppState) (as : List UiAction) : AppState :=
  as.foldl (applyAction base) s

/-- The result of the most recently completed successful list-fetch in an
interaction sequence (a submit performs a list-fetch only when its create
succeeded). -/
def lastFetchStep (acc : Option (List User)) : UiAction → Option (List User)
  | .load (Except.ok d) => some d
  | .load (Except.error _) => acc
  | .submit (Except.ok _) (Except.ok d) => some d
  | .submit (Except.ok _) (Except.error _) => acc
  | .submit (Except.error _) _ => acc

/-- Fold of `lastFetchStep` over a whole interaction sequence. -/
def lastCompletedFetch (as : List UiAction) : Option (List User) :=
  as.foldl lastFetchStep none

/-- Effects with no `setUsers` leave the collection unchanged. -/
theorem runEffects_users_of_no_setUsers (es : List Effect) :
    ∀ s : AppState, (es.all (fun e => ! e.writesUsers)) = true →
      (runEffects s es).users = s.users := by
  induction es with
  | nil => intro s _; rfl
  | cons e rest ih =>
    intro s h
    simp only [List.all_cons, Bool.and_eq_true] at h
    have h2 := ih (applyEffect s e) h.2
    have he : (applyEffect s e).users = s.users := by
      cases e with
      | setLoading b => rfl
      | httpGet u => rfl
      | setUsers us => simp [Effect.writesUsers] at h
      | httpPost u b => rfl
      | setNewUser d => rfl
      | consoleError m => rfl
    simpa [runEffects, he] using h2

/-!
Deployment scripts.

deploy.sh is a plain bash script without `set -e` and without any exit
status checks: every command in it runs in order regardless of earlier
failures, and the exit status of the script is the status of its last
command (an echo).  The PowerShell script deploy.ps1 checks
`$LASTEXITCODE` after every docker build/push command and after every
`kubectl apply`, throws on a non-zero status, and its catch blocks run
`exit 1`.
-/

/-- A command of deploy.sh. -/
inductive ShCmd where
  | echoMsg (msg : String)
  | dockerBuild (tag ctx : String)
  | dockerPush (tag : String)
  | kubectlApply (manifest : String)
deriving DecidableEq, Repr

/-- The commands of deploy.sh, in source order. -/
def deployShCmds : List ShCmd :=
  [ ShCmd.echoMsg "Building Docker images...",
    ShCmd.dockerBuild "your-registry/backend-api:latest" "./backend",
    ShCmd.dockerPush "your-registry/backend-api:latest",
    ShCmd.dockerBuild "your-registry/frontend-app:latest" "./frontend",
    ShCmd.dockerPush "your-registry/frontend-app:latest",
    ShCmd.echoMsg "Deploying to AKS...",
    ShCmd.kubectlApply "k8s/namespace.yaml",
    ShCmd.kubectlApply "k8s/backend-deployment.yaml",
    ShCmd.kubectlApply "k8s/backend-service.yaml",
    ShCmd.kubectlApply "k8s/frontend-deployment.yaml",
    ShCmd.kubectlApply "k8s/frontend-service.yaml",
    ShCmd.kubectlApply "k8s/configmap.yaml",
    ShCmd.kubectlApply "k8s/hpa.yaml",
    ShCmd.echoMsg "Deployment complete!",
    ShCmd.echoMsg "Check status with: kubectl get pods -n microservice-demo",
    ShCmd.echoMsg "Get service URL with: kubectl get svc -n microservice-demo" ]

/-- Exit status of one deploy.sh command under an environment that fixes
the status of each external command; echo always succeeds. -/
def cmdExit (env : ShCmd → Nat) : ShCmd → Nat
  | ShCmd.echoMsg _ => 0
  | c => env c

/-- Bash semantics of deploy.sh (no `set -e`, no status checks): every
command executes in order whatever the earlier statuses were; the script
exit status is the status of the last executed command. Returns the
executed commands with their statuses, and the script exit status. -/
def runSh (env : ShCmd → Nat) (cmds : List ShCmd) :
    List (ShCmd × Nat) × Nat :=
  ((cmds.map (fun c => (c, cmdExit env c))),
   ((cmds.map (cmdExit env)).getLast?.getD 0))

/-- An environment where the backend image build fails with status 1 and
every other external command succeeds. -/
def failBackendBuildEnv : ShCmd → Nat
  | ShCmd.dockerBuild "your-registry/backend-api:latest" _ => 1
  | _ => 0

/-- A docker step of the build-and-push block of deploy.ps1. -/
inductive PsStep where
  | buildBackend
  | pushBackend
  | buildFrontend
  | pushFrontend
deriving DecidableEq, Repr

/-- The docker commands of the deploy.ps1 build/push block, in source
order. -/
def psBuildPushOrder : List PsStep :=
  [PsStep.buildBackend, PsStep.pushBackend, PsStep.buildFrontend,
   PsStep.pushFrontend]

/-- PowerShell semantics of the deploy.ps1 try block: run the steps in
order; after each one, a non-zero `$LASTEXITCODE` throws, the catch block
exits with status 1 and no further step runs.  Returns the executed steps
and `some 1` when the script exited, `none` when it fell through. -/
def psRun (env : PsStep → Nat) : List PsStep → List PsStep × Option Nat
  | [] => ([], none)
  | s :: rest =>
    if env s ≠ 0 then ([s], some 1)
    else
      let r := psRun env rest
      (s :: r.1, r.2)

/-- The deploy.ps1 build/push block (app.js appendix lines 179-203). -/
def psBuildPush (env : PsStep → Nat) : List PsStep × Option Nat :=
  psRun env psBuildPushOrder

/-- The ps1 block exits with status 1 exactly when some of its steps
fails. -/
theorem psRun_exit (env : PsStep → Nat) (steps : List PsStep) :
    (psRun env steps).2 =
      (if steps.any (fun s => env s != 0) then some 1 else none) := by
  induction steps with
  | nil => rfl
  | cons s rest ih =>
    by_cases h : env s = 0
    · simp [psRun, h, ih]
    · simp [psRun, h]

/-- Unfolding of `dropLast` on a list of two or more elements. -/
theorem dropLast_cons_cons {α : Type} (a b : α) (l : List α) :
    (a :: b :: l).dropLast = a :: (b :: l).dropLast := rfl

/-- Every executed ps1 step except possibly the last one succeeded: the
block stops at the first failing step. -/
theorem psRun_stops_at_first_failure (env : PsStep → Nat)
    (steps : List PsStep) :
    ((psRun env steps).1.dropLast.all (fun s => env s == 0)) = true := by
  induction steps with
  | nil => rfl
  | cons s rest ih =>
    by_cases h : env s = 0
    · cases hr : (psRun env rest).1 with
      | nil => simp [psRun, h, hr]
      | cons e tl =>
        have ihh := ih
        rw [hr] at ihh
        simp only [psRun, h, ne_eq, not_true_eq_false, if_false, hr]
        rw [dropLast_cons_cons]
        simp only [List.all_cons, Bool.and_eq_true, beq_iff_eq]
        exact ⟨h, by simpa using ihh⟩
    · simp [psRun, h]

/-- Auxiliary invariant for the collection: folding interactions preserves
the correspondence between the displayed collection and the accumulator of
the most recently completed successful list-fetch. -/
theorem users_eq_lastCompletedFetch_aux (base : String) :
    ∀ (as : List UiAction) (s : AppState) (acc : Option (List User)),
      s.users = acc.getD [] →
      (as.foldl (applyAction base) s).users =
        (as.foldl lastFetchStep acc).getD [] := by
  intro as
  induction as with
  | nil => intro s acc h; simpa using h
  | cons a rest ih =>
    intro s acc h
    simp only [List.foldl_cons]
    apply ih
    cases a with
    | load r =>
      cases r with
      | ok d => rfl
      | error e => exact h
    | submit cr lr =>
      cases cr with
      | ok u =>
        cases lr with
        | ok d => rfl
        | error e => exact h
      | error ce => exact h

/-- C1: for every successful loadAll() call, the resulting collection
equals exactly the sequence of User records returned by the server, with
no client-side reordering, filtering, or deduplication. -/
theorem loadAll_success_collection_eq_response :
    ∀ (base : String) (s : AppState) (data : List User),
      (fetchUsers base s (Except.ok data)).users = data := by
  intro base s data
  rfl

/-- C2: at every reachable state, the displayed collection is exactly the
result of the most recently completed successful list-fetch (initially the
empty collection); moreover, along a submitDraft, the collection is
unchanged at every point before the refetch writes it, so submitDraft
never writes the collection directly and no newly created record appears
before the post-create refetch completes. -/
theorem collection_is_last_completed_fetch :
    (∀ (base : String) (as : List UiAction),
      (runActions base initState as).users = (lastCompletedFetch as).getD []) ∧
    (∀ (base : String) (s : AppState) (cr : Except TransportError Unit)
        (lr : Except TransportError (List User)),
      (runEffects s ((createUserTrace base s.newUser cr lr).takeWhile
        (fun e => ! e.writesUsers))).users = s.users) := by
  constructor
  · intro base as
    exact users_eq_lastCompletedFetch_aux base as initState none rfl
  · intro base s cr lr
    cases cr with
    | ok u =>
      cases lr with
      | ok d => rfl
      | error e => rfl
    | error ce => rfl

/-- C3: when the create POST fails, submitDraft leaves the whole state
unchanged except for appending the logged error (in particular the draft
and the collection keep their pre-call values), and its trace contains no
list-fetch request, so no second loadAll is triggered. -/
theorem submit_failure_preserves_state :
    ∀ (base : String) (s : AppState) (ce : TransportError)
      (lr : Except TransportError (List User)),
      createUser base s (Except.error ce) lr =
        { s with consoleLog := s.consoleLog ++ ["Error creating user:"] } ∧
      ((createUserTrace base s.newUser (Except.error ce) lr).all
        (fun e => ! e.isHttpGet)) = true := by
  intro base s ce lr
  exact ⟨rfl, rfl⟩

/-- C4: when the list-fetch fails, loadAll leaves the previous collection
and the draft untouched, only appends the logged error, and still sets
loading to false; no error is surfaced into any other state field. -/
theorem loadAll_failure_swallowed :
    ∀ (base : String) (s : AppState) (ce : TransportError),
      fetchUsers base s (Except.error ce) =
        { s with loading := false,
                 consoleLog := s.consoleLog ++ ["Error fetching users:"] } := by
  intro base s ce
  rfl

/-- C5: when the create POST succeeds, submitDraft resets the draft to the
empty draft and its trace continues with the whole loadAll trace, so
loadAll is invoked again. -/
theorem submit_success_resets_draft_and_refetches :
    ∀ (base : String) (s : AppState) (lr : Except TransportError (List User)),
      (createUser base s (Except.ok ()) lr).newUser = emptyDraft ∧
      createUserTrace base s.newUser (Except.ok ()) lr =
        Effect.httpPost (base ++ "/users") s.newUser ::
          Effect.setNewUser emptyDraft :: fetchUsersTrace base lr := by
  intro base s lr
  refine ⟨?_, rfl⟩
  cases lr with
  | ok d => rfl
  | error e => rfl

/-- C6 (amended): during a single non-overlapping loadAll() call, the
loading flag is true at every intermediate point strictly between the
invocation and the resolution, and false once the call has resolved
(success or failure). -/
theorem loading_true_during_single_fetch :
    ∀ (base : String) (s : AppState) (r : Except TransportError (List User)),
      (((List.scanl applyEffect s (fetchUsersTrace base r)).drop 1).dropLast.all
        (fun t => t.loading)) = true ∧
      (fetchUsers base s r).loading = false := by
  intro base s r
  cases r with
  | ok d => exact ⟨rfl, rfl⟩
  | error e => exact ⟨rfl, rfl⟩

/-- C6 counterexample: at mount the very first observable state, before the
first loadAll effect has run (the head of the scan over the mount fetch),
is `initState`, whose loading flag is already true — `useState(true)` —
even though no list-fetch is in flight, so loading is not false at all
times outside a fetch interval. -/
theorem loading_true_at_mount_before_first_fetch :
    (List.scanl applyEffect initState
        (fetchUsersTrace defaultApiBase (Except.ok []))).head? =
      some initState ∧
    initState.loading ≠ false := by
  exact ⟨rfl, by decide⟩

/-- C7: in every submitDraft trace the create POST is the first effect, no
other POST occurs, and a list-fetch GET occurs exactly when the create
resolved successfully — the two network operations are sequential in trace
order, the GET strictly after the POST. -/
theorem submit_network_ops_sequential :
    ∀ (base : String) (d : Draft) (cr : Except TransportError Unit)
      (lr : Except TransportError (List User)),
      (createUserTrace base d cr lr).head? =
        some (Effect.httpPost (base ++ "/users") d) ∧
      ((createUserTrace base d cr lr).tail.all (fun e => ! e.isHttpPost)) =
        true ∧
      ((createUserTrace base d cr lr).any (fun e => e.isHttpGet)) = isOkB cr := by
  intro base d cr lr
  cases cr with
  | ok u =>
    cases lr with
    | ok dd => exact ⟨rfl, rfl, rfl⟩
    | error e => exact ⟨rfl, rfl, rfl⟩
  | error ce => exact ⟨rfl, rfl, rfl⟩

/-- C8 counterexample: under an environment where the backend image build
fails with status 1, deploy.sh still executes every one of its commands
and exits with status 0 (the status of its final echo) — it does not exit
immediately with a non-zero code on the failed command. -/
theorem deploy_sh_swallows_build_failure :
    failBackendBuildEnv
        (ShCmd.dockerBuild "your-registry/backend-api:latest" "./backend") = 1 ∧
    (runSh failBackendBuildEnv deployShCmds).2 = 0 ∧
    (runSh failBackendBuildEnv deployShCmds).1.length =
      deployShCmds.length := by
  refine ⟨by decide, rfl, rfl⟩

/-- C8 (amended): the deploy.ps1 build/push block exits immediately with
status 1 exactly when one of its docker commands fails, executing nothing
after the first failing step; deploy.sh, by contrast, executes all of its
commands regardless of failures, and with a failed backend build it still
exits 0. -/
theorem deploy_scripts_error_handling :
    (∀ env : PsStep → Nat,
      (psBuildPush env).2 =
        (if psBuildPushOrder.any (fun s => env s != 0) then some 1
         else none)) ∧
    (∀ env : PsStep → Nat,
      ((psBuildPush env).1.dropLast.all (fun s => env s == 0)) = true) ∧
    (∀ env : ShCmd → Nat,
      (runSh env deployShCmds).1.length = deployShCmds.length) ∧
    (runSh
      (fun c =>
        if c = ShCmd.dockerBuild "your-registry/backend-api:latest" "./backend"
        then 1 else 0)
      deployShCmds).2 = 0 := by
  refine ⟨fun env => psRun_exit env psBuildPushOrder,
    fun env => psRun_stops_at_first_failure env psBuildPushOrder,
    fun env => ?_, rfl⟩
  simp [runSh, deployShCmds]

/-- C9: submitDraft never writes the loading flag directly — on a failed
create the loading flag keeps its prior value and the trace contains no
`setLoading`, and on a successful create the trace is exactly the POST,
the draft reset, and the embedded loadAll trace, so loading ends up
exactly as the invoked loadAll leaves it. -/
theorem submit_does_not_touch_loading_directly :
    (∀ (base : String) (s : AppState) (ce : TransportError)
        (lr : Except TransportError (List User)),
      (createUser base s (Except.error ce) lr).loading = s.loading) ∧
    (∀ (base : String) (d : Draft) (ce : TransportError)
        (lr : Except TransportError (List User)),
      ((createUserTrace base d (Except.error ce) lr).all
        (fun e => ! e.writesLoading)) = true) ∧
    (∀ (base : String) (d : Draft) (lr : Except TransportError (List User)),
      createUserTrace base d (Except.ok ()) lr =
        Effect.httpPost (base ++ "/users") d ::
          Effect.setNewUser emptyDraft :: fetchUsersTrace base lr) ∧
    (∀ (base : String) (s : AppState) (lr : Except TransportError (List User)),
      (createUser base s (Except.ok ()) lr).loading =
        (fetchUsers base { s with newUser := emptyDraft } lr).loading) := by
  refine ⟨fun base s ce lr => rfl, fun base d ce lr => rfl,
    fun base d lr => rfl, fun base s lr => ?_⟩
  cases lr with
  | ok dd => rfl
  | error e => rfl

/-- C10: the Gateway base URL falls back to the hardcoded default when the
environment override is absent or the empty string, and is the override
itself exactly when the override is a non-empty string. -/
theorem api_base_url_fallback :
    API_BASE_URL none = defaultApiBase ∧
    API_BASE_URL (some "") = defaultApiBase ∧
    (∀ s : String, s ≠ "" → API_BASE_URL (some s) = s) := by
  refine ⟨rfl, rfl, fun s hs => ?_⟩
  simp [API_BASE_URL, jsOr, hs]

/-- C10 witness: a concrete non-empty override is used verbatim. -/
theorem api_base_url_fallback_witness :
    ("http://backend:5000/api" : String) ≠ "" ∧
    API_BASE_URL (some "http://backend:5000/api") =
      "http://backend:5000/api" := by
  exact ⟨by decide,
    api_base_url_fallback.2.2 "http://backend:5000/api" (by decide)⟩
